import Mathlib

/-!
Shallow embedding of the OpenAI-compatibility layer (`openai/openai.go`):
the request translator (`fromRequest`), the response relay (`writer.Write`)
and the middleware (`Middleware`), together with proofs of the stated
properties.

Modelling conventions:
- Go `float64` values are modelled as `Rat`; the relevant arithmetic
  ((v + 2.0) / 4.0, the constant 0.0) is exact at every input appearing in
  a theorem, so no rounding is modelled.
- Go byte slices carried through `Write` are modelled as `String`; `len`
  becomes `String.utf8ByteSize` (Go `len` counts bytes).
- The JSON codec (`encoding/json`) is an external collaborator of this
  component; the relay only branches on whether `Unmarshal` succeeded and
  on what `Marshal` produced, so the codec is passed to the relay as an
  explicit record of functions (`Codec`).  `Marshal` of the fixed output
  structs cannot fail in Go (no channels, funcs or cycles), so the marshal
  components are total; the dead `err != nil` fallthroughs after Marshal
  in the Go code are therefore not reachable and not modelled.
- The underlying `gin.ResponseWriter` is modelled as an ideal channel: a
  write of `s` returns `(s.utf8ByteSize, nil)`.  The relay never errors on
  this channel, so the `err` component of a write result is `false` on
  every path.
- JSON binding of the inbound request body (Go struct tags, line 54-66 of
  the source) is modelled by `decodeRequest` over an association-list JSON
  object, following Go `encoding/json` field matching: the struct tag key
  when a tag is present (the `Model` field has none, so its own name is
  used), exact match preferred, case-insensitive match as fallback (ASCII
  folding, every key involved being ASCII), unknown keys ignored, a JSON
  `null` leaving the field at its zero value.
-/

/-- A JSON value, as Go `encoding/json` decodes into `interface\x7b\x7d`:
objects become key/value lists, numbers become floats (here `Rat`). -/
inductive Jval where
  | null
  | jbool (b : Bool)
  | jnum (q : Rat)
  | jstr (s : String)
  | jarr (elems : List Jval)
  | jobj (fields : List (String × Jval))
deriving Repr

/-- A value stored in the native request options map
(`map[string]interface\x7b\x7d` in Go): the translator only ever stores
ints, floats and string slices. -/
inductive OptVal where
  | ofInt (z : Int)
  | ofRat (q : Rat)
  | ofStrings (l : List String)
deriving Repr, DecidableEq

/-- The native options map.  Go map assignment semantics: `setOpt` replaces
the binding when the key exists, otherwise appends it. -/
abbrev Options := List (String × OptVal)

def setOpt : Options → String → OptVal → Options
  | [], k, v => [(k, v)]
  | p :: rest, k, v => if p.1 = k then (k, v) :: rest else p :: setOpt rest k v

def lookupOpt : Options → String → Option OptVal
  | [], _ => none
  | p :: rest, k => if p.1 = k then some p.2 else lookupOpt rest k

namespace api

/-- Modelled from the spec: a message of the backend's native chat API
(package `api`, not part of this source tree): a role and a content
string. -/
structure Message where
  Role : String
  Content : String
deriving Repr, DecidableEq

/-- Modelled from the spec: the backend's native chat request
(NativeChatRequest, section 3): model name, ordered message sequence,
free-form options map, optional output-format string, streaming flag. -/
structure ChatRequest where
  Model : String
  Messages : List Message
  Format : String
  Options : Options
  Stream : Bool
deriving Repr

/-- Modelled from the spec: the backend's native chat response
(NativeChatResponse, section 3): model name, creation timestamp (unix
seconds), a single message fragment, a done flag, and the prompt / eval
token counts.  `CreatedAt` already carries the unix value the Go code
obtains via `.Unix()`. -/
structure ChatResponse where
  Model : String
  CreatedAt : Int
  Message : Message
  Done : Bool
  PromptEvalCount : Int
  EvalCount : Int
deriving Repr, DecidableEq

/-- Modelled from the spec: the backend's native error shape
(`api.StatusError`, not part of this source tree), carrying the error
message the relay re-wraps. -/
structure StatusError where
  ErrorMessage : String
deriving Repr, DecidableEq

/-- Modelled from the spec: the message text of a native error, as used to
build the vendor error envelope (Go `serr.Error()`). -/
def StatusError.errorText (e : StatusError) : String := e.ErrorMessage

end api

namespace openai

/-- Vendor error body (`Error` struct, lines 16-21). -/
structure Error where
  Message : String
  Type' : String
  Param : Jval
  Code : Option String
deriving Repr

/-- Vendor error envelope (`ErrorResponse`, lines 23-25). -/
structure ErrorResponse where
  error : Error
deriving Repr

/-- Vendor message (`Message`, lines 27-30). -/
structure Message where
  Role : String
  Content : String
deriving Repr, DecidableEq

/-- Vendor completion choice (`Choice`, lines 32-36). -/
structure Choice where
  Index : Int
  Message : Message
  FinishReason : Option String
deriving Repr, DecidableEq

/-- Vendor streaming choice (`ChunkChoice`, lines 38-42). -/
structure ChunkChoice where
  Index : Int
  Delta : Message
  FinishReason : Option String
deriving Repr, DecidableEq

/-- Vendor usage summary (`Usage`, lines 44-48). -/
structure Usage where
  PromptTokens : Int
  CompletionTokens : Int
  TotalTokens : Int
deriving Repr, DecidableEq

/-- Vendor response-format hint (`ResponseFormat`, lines 50-52). -/
structure ResponseFormat where
  Type' : String
deriving Repr

/-- Vendor chat request (`Request`, lines 54-66) as it stands after JSON
binding.  Pointer-typed optional fields become `Option`; the `any`-typed
`Stop` keeps the raw JSON value (`Jval.null` when absent, matching the Go
nil interface). -/
structure Request where
  Model : String
  Messages : List Message
  Stream : Bool
  MaxTokens : Option Int
  Seed : Option Int
  Stop : Jval
  Temperature : Option Rat
  FrequencyPenalty : Option Rat
  PresencePenalty : Option Rat
  TopP : Option Rat
  ResponseFormat : Option ResponseFormat
deriving Repr

/-- Vendor completion object (`Completion`, lines 68-76). -/
structure Completion where
  Id : String
  Object : String
  Created : Int
  Model : String
  SystemFingerprint : String
  Choices : List Choice
  Usage : Usage
deriving Repr, DecidableEq

/-- Vendor streaming chunk (`Chunk`, lines 78-85). -/
structure Chunk where
  Id : String
  Object : String
  Created : Int
  Model : String
  SystemFingerprint : String
  Choices : List ChunkChoice
deriving Repr, DecidableEq

/-- NewError (lines 87-99): status code to vendor error envelope. -/
def NewError (code : Nat) (message : String) : ErrorResponse :=
  let etype :=
    if code = 400 then "invalid_request_error"
    else if code = 404 then "not_found_error"
    else "api_error"
  ⟨{ Message := message, Type' := etype, Param := Jval.null, Code := none }⟩

/-- toCompletion (lines 101-126). -/
def toCompletion (id : String) (r : api.ChatResponse) : Completion :=
  { Id := id
    Object := "chat.completion"
    Created := r.CreatedAt
    Model := r.Model
    SystemFingerprint := "fp_ollama"
    Choices := [{ Index := 0
                  Message := { Role := r.Message.Role, Content := r.Message.Content }
                  FinishReason := if r.Done then some "stop" else none }]
    Usage := { PromptTokens := r.PromptEvalCount
               CompletionTokens := r.EvalCount
               TotalTokens := r.PromptEvalCount + r.EvalCount } }

/-- toChunk (lines 128-149); `now` stands for `time.Now().Unix()`. -/
def toChunk (id : String) (r : api.ChatResponse) (now : Int) : Chunk :=
  { Id := id
    Object := "chat.completion.chunk"
    Created := now
    Model := r.Model
    SystemFingerprint := "fp_ollama"
    Choices := [{ Index := 0
                  Delta := { Role := "assistant", Content := r.Message.Content }
                  FinishReason := if r.Done then some "stop" else none }] }

/-- The string-typed elements of a decoded JSON array, in order (the
collection loop of lines 163-168). -/
def stringElems (xs : List Jval) : List String :=
  xs.filterMap fun v => match v with | Jval.jstr s => some s | _ => none

/-- fromRequest (lines 151-211): the request translator. -/
def fromRequest (r : Request) : api.ChatRequest :=
  let messages := r.Messages.map fun m => api.Message.mk m.Role m.Content
  let options : Options := []
  let options :=
    match r.Stop with
    | Jval.jstr s => setOpt options "stop" (OptVal.ofStrings [s])
    | Jval.jarr xs => setOpt options "stop" (OptVal.ofStrings (stringElems xs))
    | _ => options
  let options :=
    match r.MaxTokens with
    | some mt => setOpt options "num_predict" (OptVal.ofInt mt)
    | none => options
  let options :=
    match r.Temperature with
    | some t => setOpt options "temperature" (OptVal.ofRat t)
    | none => options
  let options :=
    match r.Seed with
    | some s => setOpt (setOpt options "seed" (OptVal.ofInt s)) "temperature" (OptVal.ofRat 0)
    | none => options
  let options :=
    match r.FrequencyPenalty with
    | some fp => setOpt options "frequency_penalty" (OptVal.ofRat ((fp + 2) / 4))
    | none => options
  let options :=
    match r.PresencePenalty with
    | some pp => setOpt options "presence_penalty" (OptVal.ofRat ((pp + 2) / 4))
    | none => options
  let options :=
    match r.TopP with
    | some tp => setOpt options "top_p" (OptVal.ofRat tp)
    | none => options
  let format :=
    match r.ResponseFormat with
    | some rf => if rf.Type' = "json_object" then "json" else ""
    | none => ""
  { Model := r.Model
    Messages := messages
    Format := format
    Options := options
    Stream := r.Stream }

end openai

namespace openai

/-- The JSON codec the relay consumes (an external collaborator, section 6
of the spec): the two `Unmarshal` targets the relay tries, and the three
`Marshal` calls it performs.  Marshal of these structs is total in Go. -/
structure Codec where
  parseStatusError : String → Option api.StatusError
  parseChatResponse : String → Option api.ChatResponse
  marshalError : ErrorResponse → String
  marshalCompletion : Completion → String
  marshalChunk : Chunk → String

/-- The relay state (`writer` struct, lines 213-217): the streaming flag
and the generated response id.  The underlying `gin.ResponseWriter` is
modelled as the ideal channel described in the header comment, with its
status passed to each write. -/
structure Writer where
  stream : Bool
  id : String
deriving Repr, DecidableEq

/-- The terminal sentinel frame of a stream (line 252). -/
def doneSentinel : String := "data: [DONE]\n\n"

/-- The observable outcome of one relay write: the byte strings emitted on
the underlying channel in order, the content type set (if any), and the
returned (count, error) pair.  With the ideal channel the error is `false`
on every path. -/
structure WriteOut where
  emits : List String
  ctype : Option String
  n : Nat
  err : Bool
deriving Repr, DecidableEq

/-- writer.Write (lines 219-258), one intercepted write. -/
def writerWrite (c : Codec) (now : Int) (w : Writer) (status : Nat)
    (data : String) : WriteOut :=
  if status ≠ 200 then
    match c.parseStatusError data with
    | some serr =>
      let d := c.marshalError (NewError 500 serr.errorText)
      { emits := [d], ctype := some "application/json",
        n := d.utf8ByteSize, err := false }
    | none =>
      { emits := [], ctype := none, n := data.utf8ByteSize, err := false }
  else
    match c.parseChatResponse data with
    | some chatResponse =>
      if w.stream = false then
        let d := c.marshalCompletion (toCompletion w.id chatResponse)
        { emits := [d], ctype := some "application/json",
          n := d.utf8ByteSize, err := false }
      else
        let frame := "data: " ++ c.marshalChunk (toChunk w.id chatResponse now) ++ "\n\n"
        if chatResponse.Done then
          { emits := [frame, doneSentinel], ctype := some "text/event-stream",
            n := doneSentinel.utf8ByteSize, err := false }
        else
          { emits := [frame], ctype := some "text/event-stream",
            n := data.utf8ByteSize, err := false }
    | none =>
      { emits := [], ctype := none, n := data.utf8ByteSize, err := false }

/-- The writes of one whole backend response relayed in order: the Go
writer struct is never mutated after creation, so every write sees the
same `w`.  Each input is the channel status at that write paired with the
payload. -/
def relayRun (c : Codec) (now : Int) (w : Writer) :
    List (Nat × String) → List String
  | [] => []
  | i :: rest => (writerWrite c now w i.1 i.2).emits ++ relayRun c now w rest

/-- The literal 400 message for an empty messages list (line 270),
assembled so the apostrophes around the word messages are explicit
character 39. -/
def quoteChar : String := String.singleton (Char.ofNat 39)

def emptyMessagesText : String :=
  "[] is too short - " ++ quoteChar ++ "messages" ++ quoteChar

/-- The outcome of the middleware on one inbound request: either an
aborted request (status plus JSON error body, the backend handler never
runs) or a forwarded one (the translated native request becomes the new
body and the relay writer is installed). -/
inductive MWResult where
  | aborted (status : Nat) (body : ErrorResponse)
  | forwarded (native : api.ChatRequest) (w : Writer)

/-- Middleware (lines 260-292).  `bindRes` is the outcome of
`c.ShouldBindJSON` (error text abstract, supplied by the framework);
`rid` is the value drawn from `rand.Intn(999)`, passed explicitly so the
global random source stays outside the model.  The 500 abort for a failed
`json.Marshal(fromRequest req)` is unreachable (Marshal of these structs
is total) and not modelled. -/
def Middleware (rid : Nat) (bindRes : Except String Request) : MWResult :=
  match bindRes with
  | Except.error e => MWResult.aborted 400 (NewError 400 e)
  | Except.ok req =>
    if req.Messages.length = 0 then
      MWResult.aborted 400 (NewError 400 emptyMessagesText)
    else
      MWResult.forwarded (fromRequest req)
        { stream := req.Stream, id := "chatcmpl-" ++ toString rid }

end openai

namespace openai

/-- ASCII lower-casing of one character (all JSON keys involved are
ASCII, so this matches the Unicode folding Go uses). -/
def asciiLower (c : Char) : Char :=
  if 65 ≤ c.toNat ∧ c.toNat ≤ 90 then Char.ofNat (c.toNat + 32) else c

/-- Case folding equality on keys (`strings.EqualFold` restricted to
ASCII). -/
def eqFold (a b : String) : Bool :=
  a.data.map asciiLower == b.data.map asciiLower

/-- Go `encoding/json` field matching for one struct field: the first
exact-key member wins, otherwise the first case-insensitive match. -/
def getField (obj : List (String × Jval)) (tag : String) : Option Jval :=
  match obj.find? (fun p => p.1 == tag) with
  | some p => some p.2
  | none => (obj.find? (fun p => eqFold p.1 tag)).map (fun p => p.2)

def decodeStringJ : Jval → Option String
  | Jval.jstr s => some s
  | _ => none

def decodeRatJ : Jval → Option Rat
  | Jval.jnum q => some q
  | _ => none

def decodeIntJ : Jval → Option Int
  | Jval.jnum q => if q.den = 1 then some q.num else none
  | _ => none

def decodeBoolJ : Jval → Option Bool
  | Jval.jbool b => some b
  | _ => none

/-- Binding of one optional (pointer-typed) struct field: an absent key or
a JSON null leaves the pointer nil; a present value must decode or the
whole Unmarshal errors. -/
def bindOpt (obj : List (String × Jval)) (tag : String)
    (dec : Jval → Option α) : Option (Option α) :=
  match getField obj tag with
  | none => some none
  | some Jval.null => some none
  | some v => (dec v).map some

/-- Binding of one non-pointer struct field with zero value `z`. -/
def bindPlain (obj : List (String × Jval)) (tag : String) (z : α)
    (dec : Jval → Option α) : Option α :=
  match getField obj tag with
  | none => some z
  | some Jval.null => some z
  | some v => dec v

def decodeMessageJ : Jval → Option Message
  | Jval.jobj o => do
    let role ← bindPlain o "role" "" decodeStringJ
    let content ← bindPlain o "content" "" decodeStringJ
    pure { Role := role, Content := content }
  | Jval.null => some { Role := "", Content := "" }
  | _ => none

def decodeResponseFormatJ : Jval → Option ResponseFormat
  | Jval.jobj o => do
    let t ← bindPlain o "type" "" decodeStringJ
    pure { Type' := t }
  | Jval.null => some { Type' := "" }
  | _ => none

/-- JSON binding of the vendor request body into `Request` (Go
`c.ShouldBindJSON(&req)` against the struct of lines 54-66).  Keys follow
the struct tags verbatim; in particular `PresencePenalty` binds the wire
key `presence_penalty_penalty` (tag on line 63), and `Model`, having no
tag, binds its own field name. -/
def decodeRequest (obj : List (String × Jval)) : Option Request := do
  let model ← bindPlain obj "Model" "" decodeStringJ
  let messages ←
    match getField obj "messages" with
    | none => some []
    | some Jval.null => some []
    | some (Jval.jarr xs) => xs.mapM decodeMessageJ
    | some _ => none
  let stream ← bindPlain obj "stream" false decodeBoolJ
  let maxTokens ← bindOpt obj "max_tokens" decodeIntJ
  let seed ← bindOpt obj "seed" decodeIntJ
  let stop := (getField obj "stop").getD Jval.null
  let temperature ← bindOpt obj "temperature" decodeRatJ
  let frequencyPenalty ← bindOpt obj "frequency_penalty" decodeRatJ
  let presencePenalty ← bindOpt obj "presence_penalty_penalty" decodeRatJ
  let topP ← bindOpt obj "top_p" decodeRatJ
  let responseFormat ← bindOpt obj "response_format" decodeResponseFormatJ
  pure { Model := model, Messages := messages, Stream := stream,
         MaxTokens := maxTokens, Seed := seed, Stop := stop,
         Temperature := temperature, FrequencyPenalty := frequencyPenalty,
         PresencePenalty := presencePenalty, TopP := topP,
         ResponseFormat := responseFormat }

end openai

theorem lookupOpt_setOpt_self (o : Options) (k : String) (v : OptVal) :
    lookupOpt (setOpt o k v) k = some v := by
  induction o with
  | nil => simp [setOpt, lookupOpt]
  | cons p rest ih =>
    by_cases h : p.1 = k <;> simp [setOpt, lookupOpt, h, ih]

theorem lookupOpt_setOpt_ne (o : Options) (k k2 : String) (v : OptVal)
    (h : k2 ≠ k) : lookupOpt (setOpt o k2 v) k = lookupOpt o k := by
  induction o with
  | nil => simp [setOpt, lookupOpt, h]
  | cons p rest ih =>
    by_cases hp : p.1 = k2
    · simp [setOpt, lookupOpt, hp, h]
    · simp [setOpt, lookupOpt, hp, ih]

/-- C3: a supplied seed lands in the options as "seed" and forces the
"temperature" option to exactly 0, whatever temperature the request
carried (the seed branch, lines 180-185, runs after the temperature
branch and overwrites the key). -/
theorem c3_seed_forces_zero_temperature (r : openai.Request) (s : Int)
    (h : r.Seed = some s) :
    lookupOpt (openai.fromRequest r).Options "seed" = some (OptVal.ofInt s) ∧
    lookupOpt (openai.fromRequest r).Options "temperature" = some (OptVal.ofRat 0) := by
  cases hFP : r.FrequencyPenalty <;> cases hPP : r.PresencePenalty <;>
    cases hTP : r.TopP <;>
    simp [openai.fromRequest, h, hFP, hPP, hTP,
          lookupOpt_setOpt_self, lookupOpt_setOpt_ne]

theorem c3_witness :
    ({ Model := "m", Messages := [{ Role := "user", Content := "hi" }],
       Stream := false, MaxTokens := none, Seed := some 42, Stop := Jval.null,
       Temperature := some 9, FrequencyPenalty := none, PresencePenalty := none,
       TopP := none, ResponseFormat := none } : openai.Request).Seed = some 42 ∧
    (lookupOpt (openai.fromRequest
      { Model := "m", Messages := [{ Role := "user", Content := "hi" }],
        Stream := false, MaxTokens := none, Seed := some 42, Stop := Jval.null,
        Temperature := some 9, FrequencyPenalty := none, PresencePenalty := none,
        TopP := none, ResponseFormat := none }).Options "seed"
        = some (OptVal.ofInt 42) ∧
     lookupOpt (openai.fromRequest
      { Model := "m", Messages := [{ Role := "user", Content := "hi" }],
        Stream := false, MaxTokens := none, Seed := some 42, Stop := Jval.null,
        Temperature := some 9, FrequencyPenalty := none, PresencePenalty := none,
        TopP := none, ResponseFormat := none }).Options "temperature"
        = some (OptVal.ofRat 0)) :=
  ⟨rfl, c3_seed_forces_zero_temperature _ 42 rfl⟩

/-- How the translated options answer a lookup of "stop", as a function of
the raw vendor stop value (the type switch of lines 159-170; no later
branch touches the "stop" key). -/
theorem fromRequest_stop_lookup (r : openai.Request) :
    lookupOpt (openai.fromRequest r).Options "stop" =
      (match r.Stop with
       | Jval.jstr s => some (OptVal.ofStrings [s])
       | Jval.jarr xs => some (OptVal.ofStrings (openai.stringElems xs))
       | _ => none) := by
  cases hStop : r.Stop <;> cases hMT : r.MaxTokens <;> cases hT : r.Temperature <;>
    cases hS : r.Seed <;> cases hFP : r.FrequencyPenalty <;>
    cases hPP : r.PresencePenalty <;> cases hTP : r.TopP <;>
    simp [openai.fromRequest, hStop, hMT, hT, hS, hFP, hPP, hTP,
          lookupOpt_setOpt_self, lookupOpt_setOpt_ne, setOpt, lookupOpt]

/-- C7: a single-string stop becomes a one-element "stop" option; a
sequence keeps exactly its string-typed elements in order; an absent stop
(nil interface) leaves the option out. -/
theorem c7_stop_translation (r : openai.Request) :
    (∀ s, r.Stop = Jval.jstr s →
      lookupOpt (openai.fromRequest r).Options "stop"
        = some (OptVal.ofStrings [s])) ∧
    (∀ xs, r.Stop = Jval.jarr xs →
      lookupOpt (openai.fromRequest r).Options "stop"
        = some (OptVal.ofStrings (openai.stringElems xs))) ∧
    (r.Stop = Jval.null →
      lookupOpt (openai.fromRequest r).Options "stop" = none) := by
  refine ⟨fun s hs => ?_, fun xs hxs => ?_, fun hn => ?_⟩
  · rw [fromRequest_stop_lookup]; simp [hs]
  · rw [fromRequest_stop_lookup]; simp [hxs]
  · rw [fromRequest_stop_lookup]; simp [hn]

theorem c7_witness :
    (lookupOpt (openai.fromRequest
      { Model := "m", Messages := [], Stream := false, MaxTokens := none,
        Seed := none, Stop := Jval.jstr "foo", Temperature := none,
        FrequencyPenalty := none, PresencePenalty := none, TopP := none,
        ResponseFormat := none }).Options "stop"
      = some (OptVal.ofStrings ["foo"])) ∧
    (lookupOpt (openai.fromRequest
      { Model := "m", Messages := [], Stream := false, MaxTokens := none,
        Seed := none, Stop := Jval.jarr [Jval.jstr "foo", Jval.jnum 7, Jval.jstr "bar"],
        Temperature := none, FrequencyPenalty := none, PresencePenalty := none,
        TopP := none, ResponseFormat := none }).Options "stop"
      = some (OptVal.ofStrings ["foo", "bar"])) ∧
    (lookupOpt (openai.fromRequest
      { Model := "m", Messages := [], Stream := false, MaxTokens := none,
        Seed := none, Stop := Jval.null, Temperature := none,
        FrequencyPenalty := none, PresencePenalty := none, TopP := none,
        ResponseFormat := none }).Options "stop" = none) := by
  refine ⟨(c7_stop_translation _).1 "foo" rfl, ?_, (c7_stop_translation _).2.2 rfl⟩
  have h := (c7_stop_translation
    { Model := "m", Messages := [], Stream := false, MaxTokens := none,
      Seed := none, Stop := Jval.jarr [Jval.jstr "foo", Jval.jnum 7, Jval.jstr "bar"],
      Temperature := none, FrequencyPenalty := none, PresencePenalty := none,
      TopP := none, ResponseFormat := none }).2.1 _ rfl
  simpa [openai.stringElems] using h

/-- C10: a stop sequence with no string-typed element still materialises
the "stop" key, bound to the empty sequence (the `case []interface\x7b\x7d`
arm always assigns `options["stop"]`, even when the collected slice is
empty), unlike the absent-stop case where the key is missing. -/
theorem c10_all_dropped_keeps_empty_stop (r : openai.Request) (xs : List Jval)
    (h : r.Stop = Jval.jarr xs) (hn : openai.stringElems xs = []) :
    lookupOpt (openai.fromRequest r).Options "stop"
      = some (OptVal.ofStrings []) := by
  rw [fromRequest_stop_lookup]
  simp [h, hn]

theorem c10_witness :
    ({ Model := "m", Messages := [], Stream := false, MaxTokens := none,
       Seed := none, Stop := Jval.jarr [Jval.jnum 7, Jval.jbool true],
       Temperature := none, FrequencyPenalty := none, PresencePenalty := none,
       TopP := none, ResponseFormat := none } : openai.Request).Stop
        = Jval.jarr [Jval.jnum 7, Jval.jbool true] ∧
    openai.stringElems [Jval.jnum 7, Jval.jbool true] = [] ∧
    lookupOpt (openai.fromRequest
      { Model := "m", Messages := [], Stream := false, MaxTokens := none,
        Seed := none, Stop := Jval.jarr [Jval.jnum 7, Jval.jbool true],
        Temperature := none, FrequencyPenalty := none, PresencePenalty := none,
        TopP := none, ResponseFormat := none }).Options "stop"
      = some (OptVal.ofStrings []) :=
  ⟨rfl, rfl, c10_all_dropped_keeps_empty_stop _ _ rfl rfl⟩

/-- The wire body of a vendor request that supplies the vendor field
`presence_penalty` with value 2 (plus one message, so the middleware would
accept it). -/
def presencePenaltyWire : List (String × Jval) :=
  [("messages", Jval.jarr [Jval.jobj [("role", Jval.jstr "user"), ("content", Jval.jstr "hi")]]),
   ("presence_penalty", Jval.jnum 2)]

/-- The same body under the misspelled key the struct tag actually binds. -/
def presencePenaltyTypoWire : List (String × Jval) :=
  [("messages", Jval.jarr [Jval.jobj [("role", Jval.jstr "user"), ("content", Jval.jstr "hi")]]),
   ("presence_penalty_penalty", Jval.jnum 2)]

/-- A bound PresencePenalty field always yields the rescaled
"presence_penalty" option (the branch of lines 191-193; only the top_p
branch runs later and it touches a different key). -/
theorem presence_option_of_pp (r : openai.Request) (q : Rat)
    (h : r.PresencePenalty = some q) :
    lookupOpt (openai.fromRequest r).Options "presence_penalty"
      = some (OptVal.ofRat ((q + 2) / 4)) := by
  cases hTP : r.TopP <;>
    simp [openai.fromRequest, h, hTP, lookupOpt_setOpt_self, lookupOpt_setOpt_ne]

/-- The request the JSON binder actually produces from
`presencePenaltyTypoWire`. -/
def reqTypoDecoded : openai.Request :=
  { Model := "", Messages := [{ Role := "user", Content := "hi" }],
    Stream := false, MaxTokens := none, Seed := none, Stop := Jval.null,
    Temperature := none, FrequencyPenalty := none, PresencePenalty := some 2,
    TopP := none, ResponseFormat := none }

/-- C2: evaluation at the failing input.  The struct tag on line 63 reads
`presence_penalty_penalty`, so a request that supplies the vendor field
`presence_penalty` (value 2) binds nothing: the decoded struct field stays
nil and the translated options carry no "presence_penalty" key — the spec
mapping (option = (2 + 2) / 4 = 1) never happens.  Supplying the
misspelled key is what actually produces the option. -/
theorem c2_presence_penalty_tag_mismatch :
    (openai.decodeRequest presencePenaltyWire).map
        (fun r => r.PresencePenalty) = some none ∧
    (openai.decodeRequest presencePenaltyWire).map
        (fun r => lookupOpt (openai.fromRequest r).Options "presence_penalty")
      = some none ∧
    (openai.decodeRequest presencePenaltyTypoWire).map
        (fun r => lookupOpt (openai.fromRequest r).Options "presence_penalty")
      = some (some (OptVal.ofRat 1)) := by
  refine ⟨by decide, by decide, ?_⟩
  have hdec : openai.decodeRequest presencePenaltyTypoWire = some reqTypoDecoded := rfl
  have hval : ((2 : Rat) + 2) / 4 = 1 := by norm_num
  rw [hdec, Option.map_some', presence_option_of_pp reqTypoDecoded 2 rfl, hval]

/-- A codec on which every Unmarshal fails, for exercising the fallthrough
paths at concrete inputs. -/
def trivCodec : openai.Codec :=
  { parseStatusError := fun _ => none
    parseChatResponse := fun _ => none
    marshalError := fun e => e.error.Message
    marshalCompletion := fun c => c.Id
    marshalChunk := fun c => c.Id }

/-- C1 counterexample: with OK status and a payload no parse recognises,
the relay does not forward the payload: the write is swallowed whole.  The
Go fallthrough (line 257) returns `len(data), nil` without ever calling
`w.ResponseWriter.Write(data)`, so the client receives nothing, not the
original bytes. -/
theorem c1_passthrough_refuted :
    trivCodec.parseChatResponse "hello" = none ∧
    (openai.writerWrite trivCodec 0 { stream := false, id := "chatcmpl-1" }
        200 "hello").emits = [] ∧
    (openai.writerWrite trivCodec 0 { stream := false, id := "chatcmpl-1" }
        200 "hello").emits ≠ ["hello"] := by
  refine ⟨rfl, by decide, by decide⟩

/-- C1 (amended): an OK-status write whose payload does not parse as a
chat response is swallowed silently — nothing is emitted on the underlying
channel — while the write still reports the original byte count with no
error. -/
theorem c1_unparsed_ok_write_swallowed (c : openai.Codec) (now : Int)
    (w : openai.Writer) (status : Nat) (data : String)
    (hok : status = 200) (hp : c.parseChatResponse data = none) :
    (openai.writerWrite c now w status data).emits = [] ∧
    (openai.writerWrite c now w status data).n = data.utf8ByteSize ∧
    (openai.writerWrite c now w status data).err = false := by
  subst hok
  simp [openai.writerWrite, hp]

theorem c1_swallowed_witness :
    ((200 : Nat) = 200 ∧ trivCodec.parseChatResponse "hello" = none) ∧
    ((openai.writerWrite trivCodec 0 { stream := false, id := "chatcmpl-1" }
        200 "hello").emits = [] ∧
     (openai.writerWrite trivCodec 0 { stream := false, id := "chatcmpl-1" }
        200 "hello").n = "hello".utf8ByteSize ∧
     (openai.writerWrite trivCodec 0 { stream := false, id := "chatcmpl-1" }
        200 "hello").err = false) :=
  ⟨⟨rfl, rfl⟩,
   c1_unparsed_ok_write_swallowed trivCodec 0
     { stream := false, id := "chatcmpl-1" } 200 "hello" rfl rfl⟩

/-- Whether the middleware outcome hands the request on to the backend
handler (`c.Next()` runs only on the forwarded path). -/
def invokesBackend : openai.MWResult → Bool
  | openai.MWResult.forwarded _ _ => true
  | _ => false

/-- C5: an empty (or missing, hence zero-length after binding) messages
list aborts with 400 and the fixed invalid-request envelope, and the
backend handler is never invoked. -/
theorem c5_empty_messages_rejected (rid : Nat) (req : openai.Request)
    (h : req.Messages = []) :
    openai.Middleware rid (Except.ok req)
      = openai.MWResult.aborted 400
          (openai.NewError 400 openai.emptyMessagesText) ∧
    (openai.NewError 400 openai.emptyMessagesText).error.Type'
      = "invalid_request_error" ∧
    (openai.NewError 400 openai.emptyMessagesText).error.Message
      = "[] is too short - " ++ openai.quoteChar ++ "messages" ++ openai.quoteChar ∧
    invokesBackend (openai.Middleware rid (Except.ok req)) = false := by
  refine ⟨?_, rfl, rfl, ?_⟩ <;>
    simp [openai.Middleware, h, invokesBackend]

theorem c5_witness :
    ({ Model := "m", Messages := [], Stream := false, MaxTokens := none,
       Seed := none, Stop := Jval.null, Temperature := none,
       FrequencyPenalty := none, PresencePenalty := none, TopP := none,
       ResponseFormat := none } : openai.Request).Messages = [] ∧
    (openai.Middleware 3 (Except.ok
      { Model := "m", Messages := [], Stream := false, MaxTokens := none,
        Seed := none, Stop := Jval.null, Temperature := none,
        FrequencyPenalty := none, PresencePenalty := none, TopP := none,
        ResponseFormat := none })
      = openai.MWResult.aborted 400
          (openai.NewError 400 openai.emptyMessagesText) ∧
     (openai.NewError 400 openai.emptyMessagesText).error.Type'
       = "invalid_request_error" ∧
     (openai.NewError 400 openai.emptyMessagesText).error.Message
       = "[] is too short - " ++ openai.quoteChar ++ "messages" ++ openai.quoteChar ∧
     invokesBackend (openai.Middleware 3 (Except.ok
      { Model := "m", Messages := [], Stream := false, MaxTokens := none,
        Seed := none, Stop := Jval.null, Temperature := none,
        FrequencyPenalty := none, PresencePenalty := none, TopP := none,
        ResponseFormat := none })) = false) :=
  ⟨rfl, c5_empty_messages_rejected 3 _ rfl⟩

/-- A codec that recognises the payload "boom" as a native error carrying
the message "oops" and nothing else. -/
def errCodec : openai.Codec :=
  { trivCodec with
    parseStatusError := fun s =>
      if s == "boom" then some { ErrorMessage := "oops" } else none }

/-- C6: on a non-OK status, a payload that parses as the native error
shape is replaced by the JSON vendor envelope built by `NewError(500, ...)`
from the native message, whose type tag is "api_error" whatever the
backend status was; a payload that does not parse is swallowed, the
original byte count reported with no error. -/
theorem c6_non_ok_error_relay (c : openai.Codec) (now : Int)
    (w : openai.Writer) (status : Nat) (data : String)
    (hs : status ≠ 200) :
    (∀ serr, c.parseStatusError data = some serr →
      (openai.writerWrite c now w status data).ctype = some "application/json" ∧
      (openai.writerWrite c now w status data).emits
        = [c.marshalError (openai.NewError 500 serr.errorText)] ∧
      (openai.NewError 500 serr.errorText).error.Type' = "api_error") ∧
    (c.parseStatusError data = none →
      (openai.writerWrite c now w status data).emits = [] ∧
      (openai.writerWrite c now w status data).n = data.utf8ByteSize ∧
      (openai.writerWrite c now w status data).err = false) := by
  constructor
  · intro serr hp
    simp [openai.writerWrite, hs, hp, openai.NewError]
  · intro hp
    simp [openai.writerWrite, hs, hp]

theorem c6_witness :
    ((404 : Nat) ≠ 200) ∧
    ((openai.writerWrite errCodec 0 { stream := false, id := "chatcmpl-1" }
        404 "boom").ctype = some "application/json" ∧
     (openai.writerWrite errCodec 0 { stream := false, id := "chatcmpl-1" }
        404 "boom").emits
       = [errCodec.marshalError (openai.NewError 500 "oops")] ∧
     (openai.NewError 500 "oops").error.Type' = "api_error") ∧
    ((openai.writerWrite errCodec 0 { stream := false, id := "chatcmpl-1" }
        404 "quiet").emits = [] ∧
     (openai.writerWrite errCodec 0 { stream := false, id := "chatcmpl-1" }
        404 "quiet").n = "quiet".utf8ByteSize ∧
     (openai.writerWrite errCodec 0 { stream := false, id := "chatcmpl-1" }
        404 "quiet").err = false) := by
  refine ⟨by decide, ?_, ?_⟩
  · have h := (c6_non_ok_error_relay errCodec 0
      { stream := false, id := "chatcmpl-1" } 404 "boom" (by decide)).1
      { ErrorMessage := "oops" } (by decide)
    simpa [api.StatusError.errorText] using h
  · exact (c6_non_ok_error_relay errCodec 0
      { stream := false, id := "chatcmpl-1" } 404 "quiet" (by decide)).2 rfl

/-- A finished backend fragment: done, 5 prompt tokens, 10 eval tokens. -/
def respDone : api.ChatResponse :=
  { Model := "llama", CreatedAt := 1700000000,
    Message := { Role := "assistant", Content := "world" },
    Done := true, PromptEvalCount := 5, EvalCount := 10 }

/-- An intermediate backend fragment (done=false). -/
def respPart : api.ChatResponse :=
  { Model := "llama", CreatedAt := 1700000000,
    Message := { Role := "assistant", Content := "hello " },
    Done := false, PromptEvalCount := 0, EvalCount := 0 }

/-- A codec that recognises the payload "part" as the intermediate
fragment and "done" as the final one. -/
def chatCodec : openai.Codec :=
  { trivCodec with
    parseChatResponse := fun s =>
      if s == "part" then some respPart
      else if s == "done" then some respDone
      else none }

/-- C8: a non-streaming OK write that parses emits exactly the marshalled
completion as JSON, with finish reason "stop" iff done and usage summing
the two token counts. -/
theorem c8_completion_translation (c : openai.Codec) (now : Int)
    (w : openai.Writer) (data : String) (r : api.ChatResponse)
    (hstream : w.stream = false) (hp : c.parseChatResponse data = some r) :
    (openai.writerWrite c now w 200 data).emits
      = [c.marshalCompletion (openai.toCompletion w.id r)] ∧
    (openai.writerWrite c now w 200 data).ctype = some "application/json" ∧
    (openai.toCompletion w.id r).Choices
      = [{ Index := 0
           Message := { Role := r.Message.Role, Content := r.Message.Content }
           FinishReason := if r.Done then some "stop" else none }] ∧
    (openai.toCompletion w.id r).Usage
      = { PromptTokens := r.PromptEvalCount
          CompletionTokens := r.EvalCount
          TotalTokens := r.PromptEvalCount + r.EvalCount } := by
  refine ⟨?_, ?_, rfl, rfl⟩ <;>
    simp [openai.writerWrite, hstream, hp]

theorem c8_witness :
    (({ stream := false, id := "chatcmpl-9" } : openai.Writer).stream = false ∧
     chatCodec.parseChatResponse "done" = some respDone) ∧
    ((openai.writerWrite chatCodec 0 { stream := false, id := "chatcmpl-9" }
        200 "done").emits
       = [chatCodec.marshalCompletion (openai.toCompletion "chatcmpl-9" respDone)] ∧
     (openai.writerWrite chatCodec 0 { stream := false, id := "chatcmpl-9" }
        200 "done").ctype = some "application/json" ∧
     (openai.toCompletion "chatcmpl-9" respDone).Choices
       = [{ Index := 0
            Message := { Role := "assistant", Content := "world" }
            FinishReason := some "stop" }] ∧
     (openai.toCompletion "chatcmpl-9" respDone).Usage
       = { PromptTokens := 5, CompletionTokens := 10, TotalTokens := 15 }) := by
  refine ⟨⟨rfl, by decide⟩, ?_⟩
  have h := c8_completion_translation chatCodec 0
    { stream := false, id := "chatcmpl-9" } "done" respDone rfl (by decide)
  simpa [respDone] using h

/-- C4: on a streaming request every parsed fragment becomes exactly one
event-stream frame `data: <chunk-json>\n\n` whose delta role is forced to
"assistant" and whose finish reason is "stop" iff the fragment is done;
the done fragment is followed immediately by the `data: [DONE]` sentinel,
so the run over (done=false, done=true) is exactly two data frames and
then the sentinel. -/
theorem c4_streaming_frames (c : openai.Codec) (now : Int)
    (w : openai.Writer) (d1 d2 : String) (r1 r2 : api.ChatResponse)
    (hs : w.stream = true)
    (h1 : c.parseChatResponse d1 = some r1) (hd1 : r1.Done = false)
    (h2 : c.parseChatResponse d2 = some r2) (hd2 : r2.Done = true) :
    ((openai.writerWrite c now w 200 d1).ctype = some "text/event-stream" ∧
     (openai.writerWrite c now w 200 d1).emits
       = ["data: " ++ c.marshalChunk (openai.toChunk w.id r1 now) ++ "\n\n"]) ∧
    ((openai.writerWrite c now w 200 d2).ctype = some "text/event-stream" ∧
     (openai.writerWrite c now w 200 d2).emits
       = ["data: " ++ c.marshalChunk (openai.toChunk w.id r2 now) ++ "\n\n",
          openai.doneSentinel]) ∧
    (openai.toChunk w.id r1 now).Choices
      = [{ Index := 0
           Delta := { Role := "assistant", Content := r1.Message.Content }
           FinishReason := none }] ∧
    (openai.toChunk w.id r2 now).Choices
      = [{ Index := 0
           Delta := { Role := "assistant", Content := r2.Message.Content }
           FinishReason := some "stop" }] ∧
    openai.relayRun c now w [(200, d1), (200, d2)]
      = ["data: " ++ c.marshalChunk (openai.toChunk w.id r1 now) ++ "\n\n",
         "data: " ++ c.marshalChunk (openai.toChunk w.id r2 now) ++ "\n\n",
         openai.doneSentinel] := by
  refine ⟨⟨?_, ?_⟩, ⟨?_, ?_⟩, ?_, ?_, ?_⟩ <;>
    simp [openai.writerWrite, openai.relayRun, openai.toChunk,
          hs, h1, hd1, h2, hd2]

theorem c4_witness :
    (({ stream := true, id := "chatcmpl-9" } : openai.Writer).stream = true ∧
     chatCodec.parseChatResponse "part" = some respPart ∧ respPart.Done = false ∧
     chatCodec.parseChatResponse "done" = some respDone ∧ respDone.Done = true) ∧
    openai.relayRun chatCodec 0 { stream := true, id := "chatcmpl-9" }
        [(200, "part"), (200, "done")]
      = ["data: " ++ chatCodec.marshalChunk
           (openai.toChunk "chatcmpl-9" respPart 0) ++ "\n\n",
         "data: " ++ chatCodec.marshalChunk
           (openai.toChunk "chatcmpl-9" respDone 0) ++ "\n\n",
         openai.doneSentinel] := by
  refine ⟨⟨rfl, by decide, rfl, by decide, rfl⟩, ?_⟩
  exact (c4_streaming_frames chatCodec 0 { stream := true, id := "chatcmpl-9" }
    "part" "done" respPart respDone rfl (by decide) rfl (by decide) rfl).2.2.2.2

/-- The shape of any byte string the relay can emit: the sentinel, a
marshalled error envelope, or the marshalling of a completion or chunk
carrying the given id. -/
def emitShape (c : openai.Codec) (idv : String) (e : String) : Prop :=
  e = openai.doneSentinel ∨
  (∃ err, e = c.marshalError err) ∨
  (∃ cm, e = c.marshalCompletion cm ∧ cm.Id = idv) ∨
  (∃ ch, e = "data: " ++ c.marshalChunk ch ++ "\n\n" ∧ ch.Id = idv)

/-- Every emission of a single relay write is of `emitShape`, with every
completion or chunk carrying exactly the id stored in the writer. -/
theorem writerWrite_emitShape (c : openai.Codec) (now : Int)
    (w : openai.Writer) (status : Nat) (data : String) :
    ∀ e ∈ (openai.writerWrite c now w status data).emits,
      emitShape c w.id e := by
  intro e he
  by_cases hs : status ≠ 200
  · cases hp : c.parseStatusError data with
    | some serr =>
      simp [openai.writerWrite, hs, hp] at he
      exact Or.inr (Or.inl ⟨_, he⟩)
    | none =>
      simp [openai.writerWrite, hs, hp] at he
  · cases hp : c.parseChatResponse data with
    | some r =>
      by_cases hstream : w.stream = false
      · simp [openai.writerWrite, hs, hp, hstream] at he
        exact Or.inr (Or.inr (Or.inl ⟨_, he, rfl⟩))
      · by_cases hd : r.Done
        · simp [openai.writerWrite, hs, hp, hstream, hd] at he
          rcases he with he | he
          · exact Or.inr (Or.inr (Or.inr ⟨_, he, rfl⟩))
          · exact Or.inl he
        · simp [openai.writerWrite, hs, hp, hstream, hd] at he
          exact Or.inr (Or.inr (Or.inr ⟨_, he, rfl⟩))
    | none =>
      simp [openai.writerWrite, hs, hp] at he

/-- The same, over a whole relayed response. -/
theorem relayRun_emitShape (c : openai.Codec) (now : Int)
    (w : openai.Writer) (inputs : List (Nat × String)) :
    ∀ e ∈ openai.relayRun c now w inputs, emitShape c w.id e := by
  induction inputs with
  | nil => intro e he; simp [openai.relayRun] at he
  | cons i rest ih =>
    intro e he
    simp only [openai.relayRun, List.mem_append] at he
    rcases he with he | he
    · exact writerWrite_emitShape c now w i.1 i.2 e he
    · exact ih e he

/-- C9: the writer the middleware installs carries the streaming flag of
the request and the one id generated at interception (`rid` being the
value drawn from the process random source), and every completion or
chunk emitted by any write of the whole response carries exactly that
id — the writer record is immutable, so every write sees the same
state. -/
theorem c9_single_id_per_request (rid : Nat) (req : openai.Request)
    (native : api.ChatRequest) (w : openai.Writer) (c : openai.Codec)
    (now : Int) (inputs : List (Nat × String)) (e : String)
    (hm : openai.Middleware rid (Except.ok req)
            = openai.MWResult.forwarded native w)
    (he : e ∈ openai.relayRun c now w inputs) :
    w.stream = req.Stream ∧
    w.id = "chatcmpl-" ++ toString rid ∧
    emitShape c w.id e := by
  by_cases hlen : req.Messages.length = 0
  · simp [openai.Middleware, hlen] at hm
  · simp [openai.Middleware, hlen] at hm
    obtain ⟨-, hw⟩ := hm
    subst hw
    exact ⟨rfl, rfl, relayRun_emitShape c now _ inputs e he⟩

theorem c9_witness :
    (openai.Middleware 7 (Except.ok
        { Model := "m", Messages := [{ Role := "user", Content := "hi" }],
          Stream := true, MaxTokens := none, Seed := none, Stop := Jval.null,
          Temperature := none, FrequencyPenalty := none,
          PresencePenalty := none, TopP := none, ResponseFormat := none })
      = openai.MWResult.forwarded
          (openai.fromRequest
            { Model := "m", Messages := [{ Role := "user", Content := "hi" }],
              Stream := true, MaxTokens := none, Seed := none, Stop := Jval.null,
              Temperature := none, FrequencyPenalty := none,
              PresencePenalty := none, TopP := none, ResponseFormat := none })
          { stream := true, id := "chatcmpl-7" } ∧
     openai.doneSentinel ∈ openai.relayRun chatCodec 0
        { stream := true, id := "chatcmpl-7" } [(200, "done")]) ∧
    (({ stream := true, id := "chatcmpl-7" } : openai.Writer).stream = true ∧
     ({ stream := true, id := "chatcmpl-7" } : openai.Writer).id
       = "chatcmpl-" ++ toString 7 ∧
     emitShape chatCodec
       ({ stream := true, id := "chatcmpl-7" } : openai.Writer).id
       openai.doneSentinel) := by
  refine ⟨⟨rfl, by decide⟩, ?_⟩
  have h := c9_single_id_per_request 7
    { Model := "m", Messages := [{ Role := "user", Content := "hi" }],
      Stream := true, MaxTokens := none, Seed := none, Stop := Jval.null,
      Temperature := none, FrequencyPenalty := none,
      PresencePenalty := none, TopP := none, ResponseFormat := none }
    (openai.fromRequest
      { Model := "m", Messages := [{ Role := "user", Content := "hi" }],
        Stream := true, MaxTokens := none, Seed := none, Stop := Jval.null,
        Temperature := none, FrequencyPenalty := none,
        PresencePenalty := none, TopP := none, ResponseFormat := none })
    { stream := true, id := "chatcmpl-7" } chatCodec 0 [(200, "done")]
    openai.doneSentinel rfl (by decide)
  simpa using h
